import Mathlib

/-!
Verification development for a JSON → vendor-XML robot-network converter
(`iicode.py`).  The pipeline reads one JSON document describing a Master
controller and its Slave robots, builds a row-per-robot table, and renders
four templated XML documents plus a packaged archive.

The Python source is shallowly embedded below: pandas DataFrames become
lists of `RobotRow` records, cell values that may be missing (pandas `NaN`)
become the `Cell` type, fallible steps return `Except PyError`, and the
string-templated XML emitters become Lean string builders mirroring the
source templates character for character.  Definitions named `...Spec` are
the one exception: they follow the specification's words and are compared
with the source-derived emitters by refinement theorems.
-/

set_option autoImplicit false

namespace IICode

/-- A pandas cell: either an actual string value or the missing value `NaN`.
Python's `str.format` renders a float `NaN` as the literal text `nan`. -/
inductive Cell where
  | str (s : String)
  | nan
  deriving DecidableEq, Repr

/-- How a cell is interpolated into a template string (`"{}".format(v)`):
a string renders as itself, `NaN` renders as the literal `nan`. -/
def Cell.render : Cell → String
  | .str s => s
  | .nan => "nan"

/-- One entry of the input JSON's `Measurements` list, in the documented
shape `{RobotName, RobotType, X, Y, Z, RX, RY, RZ}` (no `IP` key). -/
structure Measurement where
  RobotName : String
  RobotType : String
  X : String
  Y : String
  Z : String
  RX : String
  RY : String
  RZ : String
  deriving DecidableEq, Repr

/-- The parsed top-level input JSON object.  `IP = none` models an absent
`IP` key (`json_data.get("IP", "NA")` then yields the placeholder), and an
absent `Measurements` key is modelled by the empty list, exactly the value
`json_data.get("Measurements", [])` produces for it. -/
structure InputJson where
  RobotName : String
  RobotType : String
  IP : Option String
  Measurements : List Measurement
  deriving DecidableEq, Repr

/-- One row of the combined Master/Slave DataFrame produced by
`process_json`.  Only `IP` can be a missing value: the Slave rows come from
`Measurements` entries, which carry no `IP` key, so `pd.concat` fills their
`IP` column with `NaN`. -/
structure RobotRow where
  RobotName : String
  Role : String
  RobotType : String
  X : String
  Y : String
  Z : String
  RX : String
  RY : String
  RZ : String
  IP : Cell
  deriving DecidableEq, Repr

instance : Inhabited RobotRow :=
  ⟨{ RobotName := "", Role := "", RobotType := "", X := "", Y := "", Z := "",
     RX := "", RY := "", RZ := "", IP := Cell.nan }⟩

/-- Python exceptions that escape the embedded fragment of the pipeline.
`notFound` is the `IndexError` raised by `[... ][0]` on an empty match list
(the spec's `NotFoundError` case for a missing JSON input); `keyError` is
the pandas `KeyError` raised by `df['RobotName']` when the empty
`Measurements` list yields a DataFrame with no columns. -/
inductive PyError where
  | notFound
  | keyError
  deriving DecidableEq, Repr

/-- The name cleaner `clean_robot_name` from `process_json`:
`robot_name.replace('+', '').replace('=', '').split('-')[0]`.
A `replace(c, '')` with a one-character pattern deletes every occurrence of
that character, and `split('-')[0]` is the prefix of the string before the
first `'-'` (the whole string when none occurs), i.e. `takeWhile (≠ '-')`. -/
def clean_robot_name (robot_name : String) : String :=
  String.mk ((((robot_name.data.filter (· ≠ '+')).filter (· ≠ '=')).takeWhile (· ≠ '-')))

/-- The value formatter `format_value` from `generate_xvr_files`:
`"0.000000" if value == "NA" else value`. -/
def format_value (value : String) : String :=
  if value = "NA" then "0.000000" else value

/-- The table-building body of `process_json`, applied to the parsed JSON.
With an empty `Measurements` list, `pd.DataFrame([])` has no columns and
`df['RobotName']` raises `KeyError` before any row is built.  Otherwise one
Slave row per measurement is built (name cleaned, other fields copied, `IP`
left `NaN` by `pd.concat`), the single Master row is built from the
top-level fields (positions all `"NA"`, `IP` from the JSON or `"NA"`), and
the Master row is prepended. -/
def build_table (j : InputJson) : Except PyError (List RobotRow) :=
  match j.Measurements with
  | [] => .error PyError.keyError
  | m :: ms =>
    let slaves : List RobotRow := (m :: ms).map (fun mm =>
      { RobotName := clean_robot_name mm.RobotName
        Role := "Slave"
        RobotType := mm.RobotType
        X := mm.X, Y := mm.Y, Z := mm.Z
        RX := mm.RX, RY := mm.RY, RZ := mm.RZ
        IP := Cell.nan })
    let master : RobotRow :=
      { RobotName := clean_robot_name j.RobotName
        Role := "Master"
        RobotType := j.RobotType
        X := "NA", Y := "NA", Z := "NA"
        RX := "NA", RY := "NA", RZ := "NA"
        IP := Cell.str (j.IP.getD "NA") }
    .ok (master :: slaves)

/-- The JSON-file discovery step of `process_json`:
`[file for file in os.listdir(folder) if file.endswith('.json')][0]`.
Python's `endswith('.json')` is the suffix test on the file name's
character sequence.  Indexing the empty match list raises (unhandled). -/
def locate_json (files : List String) : Except PyError String :=
  match files.filter (fun f => ".json".data.isSuffixOf f.data) with
  | [] => .error PyError.notFound
  | f :: _ => .ok f

/-- The full `process_json`: locate the first `.json` file in the folder
listing, load it (`load` stands for `json.load` on that file's content),
and build the combined Master/Slave table.  Neither step is wrapped in a
handler, so either failure propagates to the caller. -/
def process_json (files : List String) (load : String → InputJson) :
    Except PyError (List RobotRow) :=
  match locate_json files with
  | .error e => .error e
  | .ok jf => build_table (load jf)

/-- The templated wrapper header shared by the `.xvr` emitters
(`XML_HEADER.format(var_name=...)` in the source), with the variable name
substituted. -/
def xml_header (var_name : String) : String :=
  "<!-- <Rivian code gen 1.0\" /> -->\n<?xml version=\"1.0\" encoding=\"iso-8859-1\"?>\n<XMLVAR version=\"V9.30126 2/12/2021\">\n <PROG name=\"*SYSTEM*\">\n  <VAR name=\"" ++ var_name ++ "\">"

/-- The templated wrapper footer shared by the `.xvr` emitters
(`XML_FOOTER` in the source). -/
def xml_footer : String :=
  "\n  </VAR>\n </PROG>\n</XMLVAR>\n"

/-- One MEMBER line of the ring document, as interpolated by
`generate_rosipcfg_xml` from a record of the `RobotName` and `IP` columns. -/
def member_line (robot : RobotRow) : String :=
  "    <MEMBER name=\"" ++ robot.RobotName ++ "\" ipadd=\"" ++ robot.IP.render ++ "\"/>\n"

/-- The ring-topology document built by `generate_rosipcfg_xml`: a
`ROSIPCFG`/`ROBOTRING` wrapper whose `count` is `len(robot_data)` (the
table length) and whose `timeslot` is the literal `400`, followed by one
MEMBER line per row in table order.  The filesystem side effects (folder
creation, write, echo) are outside the returned string. -/
def generate_rosipcfg_xml (df : List RobotRow) : String :=
  "<ROSIPCFG>\n<ROBOTRING count=\"" ++ toString df.length ++ "\" timeslot=\"400\">\n"
  ++ String.join (df.map member_line)
  ++ "</ROBOTRING>\n</ROSIPCFG>"

/-- The loop body of the members section of `generate_xvr_files`, for the
row at 0-based position `index` (pandas `iterrows` yields the RangeIndex
label, which is the row position after `ignore_index=True`). -/
def members_entry (index : Nat) (row : RobotRow) : String :=
  let role := row.Role
  let member_id := index + 1
  let zmgr_name := if role = "Master" then row.RobotName else "********"
  let member_name := row.RobotName
  "\n    <ARRAY name = \"$IC_AZ_MEMBR[" ++ toString member_id ++ "]\">\n      <FIELD name=\"$ZMGR_NAME\" prot =\"RW\">" ++ zmgr_name ++ "</FIELD>\n      <FIELD name=\"$MEMBER_NAME\" prot =\"RW\">" ++ member_name ++ "</FIELD>\n      <FIELD name=\"$GROUP\" prot =\"RW\">1</FIELD>\n      <FIELD name=\"$COMMENT\" prot =\"RW\">" ++ role ++ "</FIELD>\n    </ARRAY>"

/-- The `members.xvr` document built by the first half of
`generate_xvr_files`: wrapper around one ARRAY record per `iterrows` pair. -/
def generate_members_xvr (df : List RobotRow) : String :=
  xml_header "$IC_AZ_MEMBR"
  ++ String.join (df.enum.map (fun p => members_entry p.1 p.2))
  ++ xml_footer

/-- The loop body of the calibration section of `generate_xvr_files`.
The `rob1` argument is `df.iloc[0]['RobotName']`, evaluated afresh inside
the loop body on every iteration. -/
def calib_entry (rob1 : String) (index : Nat) (row : RobotRow) : String :=
  let role := row.Role
  let member_id := index + 1
  let calib_done := if role = "Master" then "TRUE" else "FALSE"
  let x_value := format_value row.X
  let y_value := format_value row.Y
  let z_value := format_value row.Z
  let rx_value := format_value row.RX
  let ry_value := format_value row.RY
  let rz_value := format_value row.RZ
  "\n    <ARRAY name = \"$IC_AZ_CALIB[" ++ toString member_id ++ "]\">\n      <FIELD name=\"$CALIB_DONE\" prot =\"RW\">" ++ calib_done ++ "</FIELD>\n      <FIELD name=\"$CALIB_FRAME\" prot =\"RW\">\n  gnum: 1 rep: 1 axes: 0 utool: 255 uframe: 255 Config: N D B, 0, 0, 0\n  X:      " ++ x_value ++ "   Y:      " ++ y_value ++ "   Z:      " ++ z_value ++ "\n  W:      " ++ rx_value ++ "   P:      " ++ ry_value ++ "   R:      " ++ rz_value ++ "</FIELD>\n      <FIELD name=\"$ROB1_NAME\" prot =\"RW\">" ++ rob1 ++ "</FIELD>\n      <FIELD name=\"$ROB2_NAME\" prot =\"RW\">" ++ row.RobotName ++ "</FIELD>\n    </ARRAY>"

/-- The `calib.xvr` document built by the second half of
`generate_xvr_files`.  In the source, `df.iloc[0]` would raise on an empty
frame, but it only occurs inside the loop body, which runs only when the
table is nonempty; the `headD` default is therefore never observed. -/
def generate_calib_xvr (df : List RobotRow) : String :=
  xml_header "$IC_AZ_CALIB"
  ++ String.join (df.enum.map (fun p => calib_entry (df.headD default).RobotName p.1 p.2))
  ++ xml_footer

/-! Spec-side structured views of the emitted documents.  These follow the
specification's words (one root element with a count attribute and a fixed
time-slot, one child record per row carrying the claimed field values) and
are related to the source-derived string emitters by refinement theorems. -/

/-- Spec-side view of the ring document: a root carrying `count` and
`timeslot` attributes and an ordered list of members, each a pair of the
rendered `name` and `ipadd` attribute values. -/
structure RingDocSpec where
  count : Nat
  timeslot : Nat
  members : List (String × String)
  deriving DecidableEq, Repr

/-- Serialization of the spec-side ring document. -/
def RingDocSpec.render (d : RingDocSpec) : String :=
  "<ROSIPCFG>\n<ROBOTRING count=\"" ++ toString d.count ++ "\" timeslot=\"" ++ toString d.timeslot ++ "\">\n"
  ++ String.join (d.members.map (fun m => "    <MEMBER name=\"" ++ m.1 ++ "\" ipadd=\"" ++ m.2 ++ "\"/>\n"))
  ++ "</ROBOTRING>\n</ROSIPCFG>"

/-- Spec-side view of one record of the members document: the 1-based
array index and the four field values. -/
structure MembersRecordSpec where
  idx : Nat
  zmgr_name : String
  member_name : String
  group : Nat
  comment : String
  deriving DecidableEq, Repr

/-- Serialization of one spec-side members record. -/
def MembersRecordSpec.render (rec : MembersRecordSpec) : String :=
  "\n    <ARRAY name = \"$IC_AZ_MEMBR[" ++ toString rec.idx ++ "]\">\n      <FIELD name=\"$ZMGR_NAME\" prot =\"RW\">" ++ rec.zmgr_name ++ "</FIELD>\n      <FIELD name=\"$MEMBER_NAME\" prot =\"RW\">" ++ rec.member_name ++ "</FIELD>\n      <FIELD name=\"$GROUP\" prot =\"RW\">" ++ toString rec.group ++ "</FIELD>\n      <FIELD name=\"$COMMENT\" prot =\"RW\">" ++ rec.comment ++ "</FIELD>\n    </ARRAY>"

/-- Spec-side view of one record of the calibration document: the 1-based
array index, the calibration-done flag, the six formatted position values,
and the two robot-name references. -/
structure CalibRecordSpec where
  idx : Nat
  calib_done : String
  x : String
  y : String
  z : String
  w : String
  p : String
  r : String
  rob1_name : String
  rob2_name : String
  deriving DecidableEq, Repr

/-- Serialization of one spec-side calibration record. -/
def CalibRecordSpec.render (rec : CalibRecordSpec) : String :=
  "\n    <ARRAY name = \"$IC_AZ_CALIB[" ++ toString rec.idx ++ "]\">\n      <FIELD name=\"$CALIB_DONE\" prot =\"RW\">" ++ rec.calib_done ++ "</FIELD>\n      <FIELD name=\"$CALIB_FRAME\" prot =\"RW\">\n  gnum: 1 rep: 1 axes: 0 utool: 255 uframe: 255 Config: N D B, 0, 0, 0\n  X:      " ++ rec.x ++ "   Y:      " ++ rec.y ++ "   Z:      " ++ rec.z ++ "\n  W:      " ++ rec.w ++ "   P:      " ++ rec.p ++ "   R:      " ++ rec.r ++ "</FIELD>\n      <FIELD name=\"$ROB1_NAME\" prot =\"RW\">" ++ rec.rob1_name ++ "</FIELD>\n      <FIELD name=\"$ROB2_NAME\" prot =\"RW\">" ++ rec.rob2_name ++ "</FIELD>\n    </ARRAY>"

/-! The packaging step.  The filesystem is modelled as an association list
from paths to file data; a write prepends, so `List.lookup` sees the most
recent content. -/

/-- Contents of a file in the modelled filesystem: either plain bytes or
an archive holding a list of named entries. -/
inductive FileData where
  | bytes (bs : List Nat)
  | zip (entries : List (String × FileData))

/-- Result of running `copy_and_zip_folder`: the filesystem afterwards,
the diagnostics printed, and whether an exception escaped. -/
structure PackOutcome where
  fs : List (String × FileData)
  printed : List String
  raised : Bool

/-- Modelled from the spec: the external archiving operation
(`os.system("zip -r ...")` is an external process, absent from the source).
Per the spec it archives the entire output directory recursively into a
single archive, here represented as the archive of every file under the
directory. -/
def zip_dir (folder_path : String) (fs : List (String × FileData)) : FileData :=
  .zip (fs.filter (fun e => e.1.startsWith (folder_path ++ "/")))

/-- The packaging step `copy_and_zip_folder`: if the fixed base file
`base/iic_chkbase.xvr` does not exist, print a diagnostic and return early
(no copy, no archive, no exception); otherwise byte-copy it to
`<folder_path>/iic_chkbase.xvr` and archive the whole output directory
into `<folder_path>.zip`. -/
def copy_and_zip_folder (folder_path : String) (fs : List (String × FileData)) :
    PackOutcome :=
  let base_file := "base/iic_chkbase.xvr"
  match fs.lookup base_file with
  | none =>
      { fs := fs
        printed := ["Base file " ++ base_file ++ " not found. Please ensure it exists."]
        raised := false }
  | some content =>
      let destination_file := folder_path ++ "/iic_chkbase.xvr"
      let fs1 := (destination_file, content) :: fs
      let zip_file_path := folder_path ++ ".zip"
      let fs2 := (zip_file_path, zip_dir folder_path fs1) :: fs1
      { fs := fs2
        printed := ["Copied " ++ base_file ++ " to " ++ destination_file,
                    "ZIP file created: " ++ zip_file_path ++ ". Please download the file."]
        raised := false }

/-! Concrete sample data, mirroring the worked scenario of the spec
(a Master `RIV-01` with one measured Slave `RIV-02-A`). -/

/-- Sample measurement entry. -/
def sampleMeasurement : Measurement :=
  { RobotName := "RIV-02-A", RobotType := "T2",
    X := "1.0", Y := "2.0", Z := "3.0", RX := "0", RY := "0", RZ := "0" }

/-- Sample parsed input JSON. -/
def sampleJson : InputJson :=
  { RobotName := "RIV-01", RobotType := "T1", IP := some "10.0.0.1",
    Measurements := [sampleMeasurement] }

/-- Sample input JSON whose Measurements list is empty. -/
def emptyMeasurementsJson : InputJson :=
  { RobotName := "RIV-01", RobotType := "T1", IP := some "10.0.0.1",
    Measurements := [] }

/-- The Master row the sample input produces. -/
def sampleMaster : RobotRow :=
  { RobotName := "RIV", Role := "Master", RobotType := "T1",
    X := "NA", Y := "NA", Z := "NA", RX := "NA", RY := "NA", RZ := "NA",
    IP := Cell.str "10.0.0.1" }

/-- The Slave row the sample input produces. -/
def sampleSlave : RobotRow :=
  { RobotName := "RIV", Role := "Slave", RobotType := "T2",
    X := "1.0", Y := "2.0", Z := "3.0", RX := "0", RY := "0", RZ := "0",
    IP := Cell.nan }

/-! Helper lemmas shared by the claim theorems. -/

/-- Reassociating an append chain fuses adjacent string literals. -/
theorem append3_fuse (x a b c d : String) (h : a ++ (b ++ c) = d) :
    ((x ++ a) ++ b) ++ c = x ++ d := by
  rw [String.append_assoc, String.append_assoc, h]

/-- Every character surviving the cleaning pipeline is none of the three
special characters. -/
theorem clean_robot_name_chars (s : String) :
    ∀ c ∈ (clean_robot_name s).data, c ≠ '+' ∧ c ≠ '=' ∧ c ≠ '-' := by
  intro c hc
  have hc' : c ∈ (((s.data.filter (· ≠ '+')).filter (· ≠ '=')).takeWhile (· ≠ '-')) := hc
  have ht := List.mem_takeWhile_imp hc'
  have hsub := List.takeWhile_sublist (l := (s.data.filter (· ≠ '+')).filter (· ≠ '=')) (· ≠ '-')
  have hmem2 := hsub.subset hc'
  have he := List.of_mem_filter hmem2
  have hp := List.of_mem_filter (List.mem_of_mem_filter hmem2)
  exact ⟨of_decide_eq_true hp, of_decide_eq_true he, of_decide_eq_true ht⟩

/-- A string containing none of the three special characters is a fixed
point of the cleaning rule. -/
theorem clean_robot_name_fixed (t : String)
    (hall : ∀ c ∈ t.data, c ≠ '+' ∧ c ≠ '=' ∧ c ≠ '-') :
    clean_robot_name t = t := by
  unfold clean_robot_name
  rw [List.filter_eq_self.2 (fun a ha => decide_eq_true (hall a ha).1),
      List.filter_eq_self.2 (fun a ha => decide_eq_true (hall a ha).2.1),
      List.takeWhile_eq_self_iff.2 (fun a ha => decide_eq_true (hall a ha).2.2)]

/-- Idempotence of the cleaning rule. -/
theorem clean_robot_name_idem (s : String) :
    clean_robot_name (clean_robot_name s) = clean_robot_name s :=
  clean_robot_name_fixed _ (clean_robot_name_chars s)

/-- The ring document emitted from a table is the serialization of the
spec-side ring structure whose count is the table length, whose time slot
is 400, and whose members are the rows' rendered names and IPs in order. -/
theorem ring_refines (df : List RobotRow) :
    generate_rosipcfg_xml df =
      RingDocSpec.render
        { count := df.length, timeslot := 400,
          members := df.map (fun r => (r.RobotName, r.IP.render)) } := by
  have h400 : toString (400 : Nat) = "400" := rfl
  unfold generate_rosipcfg_xml RingDocSpec.render member_line
  simp only [h400, List.map_map, Function.comp_def]
  congr 1
  congr 1
  refine (append3_fuse _ _ _ _ _ ?_).symm
  rfl

/-- One members-document loop iteration renders the spec-side record with
the claimed field values. -/
theorem members_entry_eq (index : Nat) (row : RobotRow) :
    members_entry index row =
      MembersRecordSpec.render
        { idx := index + 1,
          zmgr_name := if row.Role = "Master" then row.RobotName else "********",
          member_name := row.RobotName,
          group := 1,
          comment := row.Role } := by
  have h1 : toString (1 : Nat) = "1" := rfl
  unfold members_entry MembersRecordSpec.render
  by_cases h : row.Role = "Master" <;>
    simp only [h, if_true, if_false, ite_true, ite_false, h1] <;>
    (congr 1; congr 1; refine (append3_fuse _ _ _ _ _ ?_).symm; rfl)

/-- One calibration-document loop iteration renders the spec-side record
with the claimed field values. -/
theorem calib_entry_eq (rob1 : String) (index : Nat) (row : RobotRow) :
    calib_entry rob1 index row =
      CalibRecordSpec.render
        { idx := index + 1,
          calib_done := if row.Role = "Master" then "TRUE" else "FALSE",
          x := format_value row.X, y := format_value row.Y, z := format_value row.Z,
          w := format_value row.RX, p := format_value row.RY, r := format_value row.RZ,
          rob1_name := rob1, rob2_name := row.RobotName } := by
  unfold calib_entry CalibRecordSpec.render
  by_cases h : row.Role = "Master" <;> simp [h]

/-! Claim theorems. -/

/-- C1: for every well-formed input JSON object (a JSON file is found and
`Measurements` is nonempty), the table built by `process_json` is the
single Master row — name the cleaned top-level `RobotName`, all six
position fields the `"NA"` placeholder, ip the top-level `IP` or `"NA"` if
absent — followed by one Slave row per `Measurements` entry in source
order, and its length is 1 plus the number of `Measurements` entries. -/
theorem claim_C1_process_json_shape (files : List String) (load : String → InputJson)
    (jf : String) (hjf : locate_json files = .ok jf)
    (hm : (load jf).Measurements ≠ []) :
    process_json files load = .ok
      ({ RobotName := clean_robot_name (load jf).RobotName
         Role := "Master"
         RobotType := (load jf).RobotType
         X := "NA", Y := "NA", Z := "NA", RX := "NA", RY := "NA", RZ := "NA"
         IP := Cell.str ((load jf).IP.getD "NA") }
       :: (load jf).Measurements.map (fun mm =>
          { RobotName := clean_robot_name mm.RobotName
            Role := "Slave"
            RobotType := mm.RobotType
            X := mm.X, Y := mm.Y, Z := mm.Z, RX := mm.RX, RY := mm.RY, RZ := mm.RZ
            IP := Cell.nan })) ∧
    (∀ t, process_json files load = .ok t →
      t.length = 1 + (load jf).Measurements.length) := by
  obtain ⟨m, ms, hms⟩ := List.exists_cons_of_ne_nil hm
  have hrun : process_json files load = .ok
      ({ RobotName := clean_robot_name (load jf).RobotName
         Role := "Master"
         RobotType := (load jf).RobotType
         X := "NA", Y := "NA", Z := "NA", RX := "NA", RY := "NA", RZ := "NA"
         IP := Cell.str ((load jf).IP.getD "NA") }
       :: (load jf).Measurements.map (fun mm =>
          { RobotName := clean_robot_name mm.RobotName
            Role := "Slave"
            RobotType := mm.RobotType
            X := mm.X, Y := mm.Y, Z := mm.Z, RX := mm.RX, RY := mm.RY, RZ := mm.RZ
            IP := Cell.nan })) := by
    have hrun0 : process_json files load = build_table (load jf) := by
      unfold process_json
      rw [hjf]
    rw [hrun0]
    unfold build_table
    rw [hms]
  refine ⟨hrun, ?_⟩
  intro t ht
  rw [hrun] at ht
  injection ht with h2
  subst h2
  simp [hms]
  omega

/-- C1 witness: on the spec's worked scenario the table is exactly the
Master row followed by the single Slave row. -/
theorem claim_C1_process_json_shape_witness :
    locate_json ["robots.json"] = .ok "robots.json" ∧
    sampleJson.Measurements ≠ [] ∧
    process_json ["robots.json"] (fun _ => sampleJson) = .ok [sampleMaster, sampleSlave] :=
  ⟨rfl, by decide,
   (claim_C1_process_json_shape ["robots.json"] (fun _ => sampleJson) "robots.json" rfl
     (by decide)).1⟩

/-- C2: `clean_robot_name` removes every `'+'` and `'='` character and
keeps only the substring before the first `'-'` (so no cleaned name
contains any of the three characters), it is idempotent, and
`clean_robot_name "A+B=C-D-E" = "ABC"`. -/
theorem claim_C2_clean_robot_name :
    (∀ s : String, clean_robot_name (clean_robot_name s) = clean_robot_name s) ∧
    clean_robot_name "A+B=C-D-E" = "ABC" ∧
    (∀ s : String, ∀ c ∈ (clean_robot_name s).data, c ≠ '+' ∧ c ≠ '=' ∧ c ≠ '-') :=
  ⟨clean_robot_name_idem, by decide, clean_robot_name_chars⟩

/-- C2 witness: the idempotence and character facts evaluated on the
concrete example. -/
theorem claim_C2_clean_robot_name_witness :
    clean_robot_name (clean_robot_name "A+B=C-D-E") = clean_robot_name "A+B=C-D-E" ∧
    ('A' ∈ (clean_robot_name "A+B=C-D-E").data ∧
      'A' ≠ '+' ∧ 'A' ≠ '=' ∧ 'A' ≠ '-') :=
  ⟨claim_C2_clean_robot_name.1 "A+B=C-D-E",
   by decide,
   claim_C2_clean_robot_name.2.2 "A+B=C-D-E" 'A' (by decide)⟩

/-- C6: `format_value` maps the `"NA"` placeholder to the literal string
`"0.000000"` and is the identity on every other string. -/
theorem claim_C6_format_value :
    format_value "NA" = "0.000000" ∧
    ∀ v : String, v ≠ "NA" → format_value v = v := by
  refine ⟨rfl, ?_⟩
  intro v hv
  unfold format_value
  simp [hv]

/-- C6 witness: the placeholder substitution and a pass-through value. -/
theorem claim_C6_format_value_witness :
    format_value "NA" = "0.000000" ∧
    ("12.345" : String) ≠ "NA" ∧ format_value "12.345" = "12.345" :=
  ⟨claim_C6_format_value.1, by decide, claim_C6_format_value.2 "12.345" (by decide)⟩

/-- C7: when no file name in the folder listing has a `.json` extension,
`process_json` fails with the spec's `NotFoundError` (the index-0 access
on the empty match list), and the failure propagates to the caller. -/
theorem claim_C7_missing_json (files : List String) (load : String → InputJson)
    (h : ∀ f ∈ files, ".json".data.isSuffixOf f.data = false) :
    process_json files load = .error PyError.notFound := by
  have hnil : files.filter (fun f => ".json".data.isSuffixOf f.data) = [] :=
    List.filter_eq_nil_iff.2 (fun a ha => by simp [h a ha])
  unfold process_json locate_json
  rw [hnil]

/-- C7 witness: a folder holding only image and text files. -/
theorem claim_C7_missing_json_witness :
    (∀ f ∈ ["layout.png", "notes.txt"], ".json".data.isSuffixOf f.data = false) ∧
    process_json ["layout.png", "notes.txt"] (fun _ => sampleJson) =
      .error PyError.notFound :=
  ⟨by decide, claim_C7_missing_json ["layout.png", "notes.txt"] (fun _ => sampleJson)
    (by decide)⟩

/-- C10: when the located JSON's `Measurements` key is absent or an empty
list, `process_json` raises (the `RobotName` column does not exist on the
empty DataFrame) instead of returning a Master-only table, and every table
it does return has at least two rows. -/
theorem claim_C10_empty_measurements (files : List String) (load : String → InputJson)
    (jf : String) (hjf : locate_json files = .ok jf) :
    ((load jf).Measurements = [] → process_json files load = .error PyError.keyError) ∧
    (∀ t, process_json files load = .ok t → 2 ≤ t.length) := by
  have hrun : process_json files load = build_table (load jf) := by
    unfold process_json
    rw [hjf]
  constructor
  · intro h
    rw [hrun]
    unfold build_table
    rw [h]
  · intro t ht
    rw [hrun] at ht
    unfold build_table at ht
    cases hms : (load jf).Measurements with
    | nil =>
      rw [hms] at ht
      exact Except.noConfusion ht
    | cons m ms =>
      rw [hms] at ht
      injection ht with h2
      subst h2
      simp

/-- C10 witness: the empty-`Measurements` input makes `process_json`
fail with the column error rather than produce a one-row table. -/
theorem claim_C10_empty_measurements_witness :
    locate_json ["robots.json"] = .ok "robots.json" ∧
    emptyMeasurementsJson.Measurements = [] ∧
    process_json ["robots.json"] (fun _ => emptyMeasurementsJson) =
      .error PyError.keyError :=
  ⟨rfl, rfl,
   (claim_C10_empty_measurements ["robots.json"] (fun _ => emptyMeasurementsJson)
     "robots.json" rfl).1 rfl⟩

/-- C3: for every table, the ring document is one root structure whose
count attribute is the table length and whose timeslot attribute is the
constant 400, containing exactly one MEMBER element per row in table
order, with name the row's RobotName and ipadd the row's rendered IP. -/
theorem claim_C3_ring_document (df : List RobotRow) :
    generate_rosipcfg_xml df =
      RingDocSpec.render
        { count := df.length, timeslot := 400,
          members := df.map (fun r => (r.RobotName, r.IP.render)) } ∧
    (df.map (fun r => (r.RobotName, r.IP.render))).length = df.length :=
  ⟨ring_refines df, by simp⟩

/-- C4: for every table, the members document has one ARRAY record per
row whose array index is the row position plus 1, whose ZMGR_NAME is the
row's own name for a Master row and the masked string of 8 asterisks
otherwise, whose MEMBER_NAME is the row's name, whose GROUP is 1, and
whose COMMENT is the role name; the enumerated positions are exactly
0, …, length−1 in row order. -/
theorem claim_C4_members_document (df : List RobotRow) :
    generate_members_xvr df =
      xml_header "$IC_AZ_MEMBR"
      ++ String.join (df.enum.map (fun q => MembersRecordSpec.render
           { idx := q.1 + 1,
             zmgr_name := if q.2.Role = "Master" then q.2.RobotName else "********",
             member_name := q.2.RobotName,
             group := 1,
             comment := q.2.Role }))
      ++ xml_footer ∧
    df.enum.map Prod.fst = List.range df.length := by
  constructor
  · simp only [generate_members_xvr, members_entry_eq]
  · exact List.enum_map_fst df

/-- C5: for every nonempty table, each record of the calibration document
has CALIB_DONE the literal "TRUE" for a Master row and "FALSE" otherwise,
ROB1_NAME always the name of the row at index 0 of the table regardless
of the row being emitted, and ROB2_NAME the current row's name. -/
theorem claim_C5_calib_document (df : List RobotRow) (h : df ≠ []) :
    generate_calib_xvr df =
      xml_header "$IC_AZ_CALIB"
      ++ String.join (df.enum.map (fun q => CalibRecordSpec.render
           { idx := q.1 + 1,
             calib_done := if q.2.Role = "Master" then "TRUE" else "FALSE",
             x := format_value q.2.X, y := format_value q.2.Y, z := format_value q.2.Z,
             w := format_value q.2.RX, p := format_value q.2.RY, r := format_value q.2.RZ,
             rob1_name := (df.head h).RobotName,
             rob2_name := q.2.RobotName }))
      ++ xml_footer := by
  obtain ⟨r0, rs, rfl⟩ := List.exists_cons_of_ne_nil h
  simp only [generate_calib_xvr, calib_entry_eq, List.headD_cons, List.head_cons]

/-- C5 witness: the two-row sample table, whose ROB1 reference is the
Master's name in both records. -/
theorem claim_C5_calib_document_witness :
    ([sampleMaster, sampleSlave] : List RobotRow) ≠ [] ∧
    generate_calib_xvr [sampleMaster, sampleSlave] =
      xml_header "$IC_AZ_CALIB"
      ++ String.join (([sampleMaster, sampleSlave] : List RobotRow).enum.map
          (fun q => CalibRecordSpec.render
           { idx := q.1 + 1,
             calib_done := if q.2.Role = "Master" then "TRUE" else "FALSE",
             x := format_value q.2.X, y := format_value q.2.Y, z := format_value q.2.Z,
             w := format_value q.2.RX, p := format_value q.2.RY, r := format_value q.2.RZ,
             rob1_name := (([sampleMaster, sampleSlave] : List RobotRow).head
               (List.cons_ne_nil _ _)).RobotName,
             rob2_name := q.2.RobotName }))
      ++ xml_footer :=
  ⟨List.cons_ne_nil _ _,
   claim_C5_calib_document [sampleMaster, sampleSlave] (List.cons_ne_nil _ _)⟩

/-- C8: when the fixed base template is absent the packaging step prints
a diagnostic and returns early — no exception, no copy, no archive; when
it is present, the template's bytes are copied to the output directory
and the whole directory is archived into the folder-named zip. -/
theorem claim_C8_copy_and_zip (folder_path : String) (fs : List (String × FileData)) :
    (fs.lookup "base/iic_chkbase.xvr" = none →
      copy_and_zip_folder folder_path fs =
        { fs := fs,
          printed := ["Base file base/iic_chkbase.xvr not found. Please ensure it exists."],
          raised := false }) ∧
    (∀ content, fs.lookup "base/iic_chkbase.xvr" = some content →
      copy_and_zip_folder folder_path fs =
        { fs := (folder_path ++ ".zip",
                  zip_dir folder_path ((folder_path ++ "/iic_chkbase.xvr", content) :: fs))
                :: (folder_path ++ "/iic_chkbase.xvr", content) :: fs,
          printed := ["Copied base/iic_chkbase.xvr to " ++ (folder_path ++ "/iic_chkbase.xvr"),
                      "ZIP file created: " ++ (folder_path ++ ".zip") ++ ". Please download the file."],
          raised := false }) := by
  constructor
  · intro h
    simp only [copy_and_zip_folder]
    rw [h]
    rfl
  · intro content h
    simp only [copy_and_zip_folder]
    rw [h]
    rfl

/-- C8 witness: an empty filesystem triggers the early return unchanged;
a filesystem holding only the base template gets the copy and the
archive. -/
theorem claim_C8_copy_and_zip_witness :
    (([] : List (String × FileData)).lookup "base/iic_chkbase.xvr" = none ∧
      copy_and_zip_folder "OLP_NET1" [] =
        { fs := [],
          printed := ["Base file base/iic_chkbase.xvr not found. Please ensure it exists."],
          raised := false }) ∧
    ([("base/iic_chkbase.xvr", FileData.bytes [1, 2, 3])].lookup "base/iic_chkbase.xvr" =
        some (FileData.bytes [1, 2, 3]) ∧
      copy_and_zip_folder "OLP_NET1" [("base/iic_chkbase.xvr", FileData.bytes [1, 2, 3])] =
        { fs := [("OLP_NET1.zip", zip_dir "OLP_NET1"
                    [("OLP_NET1/iic_chkbase.xvr", FileData.bytes [1, 2, 3]),
                     ("base/iic_chkbase.xvr", FileData.bytes [1, 2, 3])]),
                 ("OLP_NET1/iic_chkbase.xvr", FileData.bytes [1, 2, 3]),
                 ("base/iic_chkbase.xvr", FileData.bytes [1, 2, 3])],
          printed := ["Copied base/iic_chkbase.xvr to OLP_NET1/iic_chkbase.xvr",
                      "ZIP file created: OLP_NET1.zip. Please download the file."],
          raised := false }) :=
  ⟨⟨rfl, (claim_C8_copy_and_zip "OLP_NET1" []).1 rfl⟩,
   ⟨rfl, (claim_C8_copy_and_zip "OLP_NET1" [("base/iic_chkbase.xvr", FileData.bytes [1, 2, 3])]).2
      (FileData.bytes [1, 2, 3]) rfl⟩⟩

/-- C9: for every input whose Measurements follow the documented shape
(no IP key) and are nonempty, every Slave row of the built table has the
missing IP value, only the Master row carries a real IP string, and the
ring document renders each Slave's ipadd as the literal string "nan". -/
theorem claim_C9_slave_ip_nan (j : InputJson) (hm : j.Measurements ≠ []) :
    ∃ t, build_table j = .ok t ∧
      (∀ r ∈ t.tail, r.IP = Cell.nan) ∧
      (t.headD default).IP = Cell.str (j.IP.getD "NA") ∧
      generate_rosipcfg_xml t =
        RingDocSpec.render
          { count := t.length, timeslot := 400,
            members := (clean_robot_name j.RobotName, j.IP.getD "NA")
              :: j.Measurements.map (fun mm => (clean_robot_name mm.RobotName, "nan")) } := by
  obtain ⟨m, ms, hms⟩ := List.exists_cons_of_ne_nil hm
  refine ⟨{ RobotName := clean_robot_name j.RobotName, Role := "Master",
            RobotType := j.RobotType,
            X := "NA", Y := "NA", Z := "NA", RX := "NA", RY := "NA", RZ := "NA",
            IP := Cell.str (j.IP.getD "NA") }
          :: j.Measurements.map (fun mm =>
            { RobotName := clean_robot_name mm.RobotName, Role := "Slave",
              RobotType := mm.RobotType,
              X := mm.X, Y := mm.Y, Z := mm.Z, RX := mm.RX, RY := mm.RY, RZ := mm.RZ,
              IP := Cell.nan }), ?_, ?_, ?_, ?_⟩
  · unfold build_table
    rw [hms]
  · intro r hr
    rw [List.tail_cons] at hr
    obtain ⟨mm, hmm, rfl⟩ := List.mem_map.1 hr
    rfl
  · rfl
  · rw [ring_refines]
    congr 1
    simp [List.map_map, Function.comp_def, Cell.render]

/-- C9 witness: the sample input, whose one Slave row renders with ipadd
"nan". -/
theorem claim_C9_slave_ip_nan_witness :
    sampleJson.Measurements ≠ [] ∧
    (∃ t, build_table sampleJson = .ok t ∧
      (∀ r ∈ t.tail, r.IP = Cell.nan) ∧
      (t.headD default).IP = Cell.str (sampleJson.IP.getD "NA") ∧
      generate_rosipcfg_xml t =
        RingDocSpec.render
          { count := t.length, timeslot := 400,
            members := (clean_robot_name sampleJson.RobotName, sampleJson.IP.getD "NA")
              :: sampleJson.Measurements.map
                  (fun mm => (clean_robot_name mm.RobotName, "nan")) }) :=
  ⟨by decide, claim_C9_slave_ip_nan sampleJson (by decide)⟩

end IICode
